import Mathlib

/-!
# AutoGuardRails — verification of the core guardrail logic

Shallow embedding of the AutoGuardRails repository (`src/guardrails/`):
the policy engine (`policy_engine.py`), the IAM executor (`executor_iam.py`),
the audit store (`audit_store.py`), the TTL cleanup handler
(`handlers/ttl_cleanup.py`) and the approval webhook handler
(`handlers/approval_webhook.py`).

Modelling conventions:
* Python `datetime` values are microseconds since the epoch (`Int`);
  a `timedelta` is a microsecond count.  The wall clock that enters the
  policy engine only through time-window exceptions is a `Clock` record
  (weekday abbreviation as produced by `strftime("%a").lower()`, plus the
  microsecond-of-day).
* Python `float` amounts are embedded as `Rat`.
* Dictionaries (`ActionExecution.diff`, event `details`) are association
  lists.  The values stored in `diff` by this codebase are strings,
  booleans, lists of strings, or the embedded policy document (a list of
  statements, each reduced to its `Action` list), captured by `JVal`.
* The boto3 IAM client is embedded as an explicit `IAMBackend` state.
  `ClientError`s raised by AWS are external nondeterminism; they are made
  explicit as the `attach_fail` / `detach_fail` maps of the backend, which
  make the corresponding API call fail with the mapped message.
* pydantic field validation happens at construction time in the source;
  the embedding states the validated invariants as hypotheses where a
  claim needs them (e.g. well-formed `PolicyAction`s).
* `TimeWindow.start`/`end` are validated by pydantic against the pattern
  `^\d\d:\d\d$` and then split into hour/minute by the engine; the
  embedding stores the already-split hour/minute fields.
-/

namespace AutoGuardRails

/-! ## Generic dictionary values (Python dict payloads used in this codebase) -/

/-- A value stored in an execution `diff` or event `details` dictionary.
The code stores strings, booleans, string lists and (in the approval
fallback path) a policy document, reduced here to its list of statements,
each statement being its `Action` list. -/
inductive JVal where
  | s (v : String)
  | b (v : Bool)
  | sl (v : List String)
  | stmts (v : List (List String))
deriving DecidableEq, Repr

/-- Association-list dictionary with string keys. -/
abbrev Dict := List (String × JVal)

/-- `d.get(k)` — first binding wins. -/
def dictGet (d : Dict) (k : String) : Option JVal :=
  (d.find? (fun p => p.1 == k)).map (fun p => p.2)

/-- `d[k] = v` — overwrite or insert. -/
def dictSet (d : Dict) (k : String) (v : JVal) : Dict :=
  if d.any (fun p => p.1 == k) then
    d.map (fun p => if p.1 == k then (k, v) else p)
  else d ++ [(k, v)]

/-- Python truthiness of a dictionary value (`None`/`False`/empty are falsy). -/
def jvalTruthy : Option JVal → Bool
  | none => false
  | some (.s v) => v ≠ ""
  | some (.b v) => v
  | some (.sl v) => !v.isEmpty
  | some (.stmts v) => !v.isEmpty

/-- Read a string value, Python-falsy values and non-strings giving `""`
(the code only ever stores strings under the keys read this way). -/
def dictGetStr (d : Dict) (k : String) : String :=
  match dictGet d k with
  | some (.s v) => v
  | _ => ""

/-- Lookup in a `List (String × String)` map. -/
def lookupStr (l : List (String × String)) (k : String) : Option String :=
  (l.find? (fun p => p.1 == k)).map (fun p => p.2)

/-- `str.split(sep)` on the character list (Python semantics:
`"".split(sep) == [""]`, separators at the edges produce empty parts). -/
def splitChars (sep : Char) : List Char → List (List Char)
  | [] => [[]]
  | c :: cs =>
    match splitChars sep cs with
    | [] => if c = sep then [[], []] else [[c]]
    | h :: t => if c = sep then [] :: h :: t else (c :: h) :: t

/-- `s.split(sep)` for a single-character separator. -/
def splitOnChar (s : String) (sep : Char) : List String :=
  (splitChars sep s.data).map String.mk

/-- Substring occurrence starting at any position. -/
def anyPos (needle : List Char) : List Char → Bool
  | [] => needle.isEmpty
  | c :: cs => needle.isPrefixOf (c :: cs) || anyPos needle cs

/-- Python's `needle in haystack` substring test. -/
def strContainsSub (haystack needle : String) : Bool :=
  anyPos needle.data haystack.data

/-! ## Data model (`models.py`) -/

/-- `CostEvent` (models.py).  `details` is the open string-keyed map; the
engine only reads string-valued hints from it. -/
structure CostEvent where
  event_id : String
  source : String
  account_id : String
  amount : Rat
  time_window : String
  details : List (String × String)
deriving DecidableEq, Repr

/-- `TimeWindow` (models.py) with `start`/`end` already split into
hour/minute (pydantic validates the `HH:MM` pattern at construction). -/
structure TimeWindow where
  start_h : Nat
  start_m : Nat
  end_h : Nat
  end_m : Nat
  timezone : String
  days : List String
deriving DecidableEq, Repr

/-- `PolicyExceptions` (models.py). -/
structure PolicyExceptions where
  accounts : Option (List String)
  principals : Option (List String)
  time_windows : Option (List TimeWindow)
deriving DecidableEq, Repr

/-- `PolicyMatch` (models.py). -/
structure PolicyMatch where
  source : List String
  account_ids : List String
  min_amount_usd : Rat
  max_amount_usd : Option Rat
  services : Option (List String)
  regions : Option (List String)
deriving DecidableEq, Repr

/-- `Principal` (models.py). -/
structure Principal where
  type : String
  arn : String
deriving DecidableEq, Repr

/-- `PolicyScope` (models.py). -/
structure PolicyScope where
  principals : List Principal
  regions : Option (List String)
deriving DecidableEq, Repr

/-- `PolicyAction` (models.py). -/
structure PolicyAction where
  type : String
  deny : Option (List String)
deriving DecidableEq, Repr

/-- pydantic validation of `PolicyAction` (models.py): the type literal and
the non-empty `deny` list required for `attach_deny_policy`. -/
def wfAction (a : PolicyAction) : Bool :=
  (a.type == "notify_only") ||
  (a.type == "attach_deny_policy" &&
    match a.deny with
    | some l => !l.isEmpty
    | none => false)

/-- The dangerous-operation blocklist of
`PolicyAction.validate_deny_actions` (models.py:189-195). -/
def dangerous_actions : List String :=
  ["s3:DeleteBucket", "dynamodb:DeleteTable", "rds:DeleteDBInstance",
   "ec2:TerminateInstances", "ec2:DeleteVolume"]

/-- The loop of `validate_deny_actions` (models.py:197-204) raises a
`ValueError` at the first blocklisted action of a non-`None` deny list;
for `None` the validator returns immediately (a `find?` over `[]` is the
same skip). -/
def firstDangerous (v : List String) : Option String :=
  v.find? (fun a => dangerous_actions.contains a)

/-- `GuardrailPolicy` (models.py); `match` is a Lean keyword, hence the
field name `match_`.  Notification settings are never read by the logic
verified here and are omitted. -/
structure GuardrailPolicy where
  policy_id : String
  enabled : Bool
  mode : String
  ttl_minutes : Nat
  match_ : PolicyMatch
  scope : PolicyScope
  actions : List PolicyAction
  exceptions : Option PolicyExceptions
deriving DecidableEq, Repr

/-- `ActionPlan` (models.py). -/
structure ActionPlan where
  matched : Bool
  matched_policy_id : Option String
  mode : Option String
  actions : List PolicyAction
  ttl_minutes : Option Nat
  target_principals : List String
deriving DecidableEq, Repr

/-- `ActionPlan(matched=False)` — all other fields at their defaults. -/
def unmatchedPlan : ActionPlan :=
  { matched := false
    matched_policy_id := none
    mode := none
    actions := []
    ttl_minutes := none
    target_principals := [] }

/-- `ActionExecution` (models.py).  Timestamps are in microseconds. -/
structure ActionExecution where
  execution_id : String
  policy_id : String
  event_id : String
  status : String
  executed_at : Option Int
  executed_by : String
  action : String
  target : String
  diff : Dict
  ttl_expires_at : Option Int
  rolled_back_at : Option Int
deriving DecidableEq, Repr, Inhabited

/-! ## Policy engine (`policy_engine.py`) -/

/-- The wall clock as observed by `_in_exempted_time_window`:
`datetime.utcnow()` projected to the lowercase `%a` weekday abbreviation
and the microsecond-of-day. -/
structure Clock where
  day : String
  usOfDay : Nat
deriving DecidableEq, Repr

/-- `PolicyEngine._principal_matches_allowlist` (policy_engine.py:164). -/
def principal_matches_allowlist (principal_arn : String) (allowlist : List String) : Bool :=
  allowlist.any (fun pattern =>
    if pattern.endsWith "*" then
      (pattern.dropRight 1).isPrefixOf principal_arn
    else
      principal_arn == pattern)

/-- `PolicyEngine._in_exempted_time_window` (policy_engine.py:191): the
window bounds are `now` with hour/minute replaced and second/microsecond
zeroed, compared inclusively on both ends (naive UTC, the declared
timezone field is ignored). -/
def in_exempted_time_window (now : Clock) (time_windows : List TimeWindow) : Bool :=
  time_windows.any (fun w =>
    if !(w.days.contains now.day) then false
    else
      let start_us := (w.start_h * 3600 + w.start_m * 60) * 1000000
      let end_us := (w.end_h * 3600 + w.end_m * 60) * 1000000
      decide (start_us ≤ now.usOfDay) && decide (now.usOfDay ≤ end_us))

/-- `PolicyEngine._is_exempted` (policy_engine.py:130).  Python truthiness
of the optional lists and of the looked-up principal is modelled
explicitly. -/
def is_exempted (event : CostEvent) (exceptions : PolicyExceptions) (now : Clock) : Bool :=
  (match exceptions.accounts with
   | some accs => !accs.isEmpty && accs.contains event.account_id
   | none => false) ||
  (match exceptions.principals with
   | some prins =>
     if prins.isEmpty then false
     else
       match lookupStr event.details "principal_arn" with
       | some p => p ≠ "" && principal_matches_allowlist p prins
       | none => false
   | none => false) ||
  (match exceptions.time_windows with
   | some tws => !tws.isEmpty && in_exempted_time_window now tws
   | none => false)

/-- Membership test for an optional detail value: Python's
`event.details.get(k) not in filter_list` is false exactly when the detail
is present and listed. -/
def optContains (l : List String) (o : Option String) : Bool :=
  match o with
  | some s => l.contains s
  | none => false

/-- `PolicyEngine.match_event` (policy_engine.py:63): the short-circuit
condition chain, with the exception allowlist checked last. -/
def match_event (event : CostEvent) (policy : GuardrailPolicy) (now : Clock) : Bool :=
  if !(policy.match_.source.contains event.source) then false
  else if !(policy.match_.account_ids.contains event.account_id) then false
  else if event.amount < policy.match_.min_amount_usd then false
  else if (match policy.match_.max_amount_usd with
           | some mx => decide (mx < event.amount)
           | none => false) then false
  else if (match policy.match_.services with
           | some svcs => !(optContains svcs (lookupStr event.details "service"))
           | none => false) then false
  else if (match policy.match_.regions with
           | some rgs => !(optContains rgs (lookupStr event.details "region"))
           | none => false) then false
  else if (match policy.exceptions with
           | some ex => is_exempted event ex now
           | none => false) then false
  else true

/-- `PolicyEngine._build_action_plan` (policy_engine.py:225). -/
def build_action_plan (policy : GuardrailPolicy) : ActionPlan :=
  { matched := true
    matched_policy_id := some policy.policy_id
    mode := some policy.mode
    actions := policy.actions
    ttl_minutes := some policy.ttl_minutes
    target_principals := policy.scope.principals.map (fun p => p.arn) }

/-- `PolicyEngine.evaluate` (policy_engine.py:34). -/
def evaluate (event : CostEvent) : List GuardrailPolicy → Clock → ActionPlan
  | [], _ => unmatchedPlan
  | p :: ps, now =>
    if !p.enabled then evaluate event ps now
    else if match_event event p now then build_action_plan p
    else evaluate event ps now

/-! ## SHA-256, HMAC and JSON serialization

`executor_iam.py` derives the deny-policy name from
`hashlib.sha256(json.dumps(deny_actions, sort_keys=True).encode()).hexdigest()[:8]`
and `approval_webhook.py` signs approval links with HMAC-SHA256.  Both are
embedded executably below (32-bit words as `Nat` mod `2^32`). -/

/-- 32-bit truncation. -/
def w32 (n : Nat) : Nat := n % 4294967296

/-- Bitwise combination of two words, one bit at a time (fuel = width). -/
def bitw2 (f : Nat → Nat → Nat) : Nat → Nat → Nat → Nat
  | 0, _, _ => 0
  | k + 1, x, y => f (x % 2) (y % 2) + 2 * bitw2 f k (x / 2) (y / 2)

/-- Bitwise combination of three words, one bit at a time. -/
def bitw3 (f : Nat → Nat → Nat → Nat) : Nat → Nat → Nat → Nat → Nat
  | 0, _, _, _ => 0
  | k + 1, x, y, z => f (x % 2) (y % 2) (z % 2) + 2 * bitw3 f k (x / 2) (y / 2) (z / 2)

def xor3_32 (x y z : Nat) : Nat := bitw3 (fun a b c => (a + b + c) % 2) 32 x y z

def ch32 (x y z : Nat) : Nat := bitw3 (fun a b c => if a = 1 then b else c) 32 x y z

def maj32 (x y z : Nat) : Nat := bitw3 (fun a b c => if 2 ≤ a + b + c then 1 else 0) 32 x y z

def xor8 (x y : Nat) : Nat := bitw2 (fun a b => (a + b) % 2) 8 x y

def rotr32 (x n : Nat) : Nat := w32 (x / 2 ^ n + x % 2 ^ n * 2 ^ (32 - n))

def bsig0 (x : Nat) : Nat := xor3_32 (rotr32 x 2) (rotr32 x 13) (rotr32 x 22)

def bsig1 (x : Nat) : Nat := xor3_32 (rotr32 x 6) (rotr32 x 11) (rotr32 x 25)

def ssig0 (x : Nat) : Nat := xor3_32 (rotr32 x 7) (rotr32 x 18) (x / 2 ^ 3)

def ssig1 (x : Nat) : Nat := xor3_32 (rotr32 x 17) (rotr32 x 19) (x / 2 ^ 10)

/-- The 64 SHA-256 round constants of FIPS 180-4, in decimal. -/
def shaK : List Nat :=
  [1116352408, 1899447441, 3049323471, 3921009573, 961987163, 1508970993,
   2453635748, 2870763221, 3624381080, 310598401, 607225278, 1426881987,
   1925078388, 2162078206, 2614888103, 3248222580, 3835390401, 4022224774,
   264347078, 604807628, 770255983, 1249150122, 1555081692, 1996064986,
   2554220882, 2821834349, 2952996808, 3210313671, 3336571891, 3584528711,
   113926993, 338241895, 666307205, 773529912, 1294757372, 1396182291,
   1695183700, 1986661051, 2177026350, 2456956037, 2730485921, 2820302411,
   3259730800, 3345764771, 3516065817, 3600352804, 4094571909, 275423344,
   430227734, 506948616, 659060556, 883997877, 958139571, 1322822218,
   1537002063, 1747873779, 1955562222, 2024104815, 2227730452, 2361852424,
   2428436474, 2756734187, 3204031479, 3329325298]

/-- The eight SHA-256 initial hash words of FIPS 180-4, in decimal. -/
def shaH0 : List Nat :=
  [1779033703, 3144134277, 1013904242, 2773480762,
   1359893119, 2600822924, 528734635, 1541459225]

/-- Extend a 16-word block to the 64-word message schedule. -/
def buildW : Nat → List Nat → List Nat
  | 0, acc => acc
  | k + 1, acc =>
    let n := acc.length
    let wt := w32 (ssig1 (acc.getD (n - 2) 0) + acc.getD (n - 7) 0 +
                   ssig0 (acc.getD (n - 15) 0) + acc.getD (n - 16) 0)
    buildW k (acc ++ [wt])

/-- One SHA-256 working state. -/
structure Sha8 where
  a : Nat
  b : Nat
  c : Nat
  d : Nat
  e : Nat
  f : Nat
  g : Nat
  h : Nat

/-- One SHA-256 compression round. -/
def roundStep (st : Sha8) (kc wt : Nat) : Sha8 :=
  let t1 := w32 (st.h + bsig1 st.e + ch32 st.e st.f st.g + kc + wt)
  let t2 := w32 (bsig0 st.a + maj32 st.a st.b st.c)
  { a := w32 (t1 + t2), b := st.a, c := st.b, d := st.c
    e := w32 (st.d + t1), f := st.e, g := st.f, h := st.g }

/-- Compress one 16-word block into the running hash. -/
def compressBlock (hs : List Nat) (block : List Nat) : List Nat :=
  let ws := buildW 48 block
  let st0 : Sha8 :=
    { a := hs.getD 0 0, b := hs.getD 1 0, c := hs.getD 2 0, d := hs.getD 3 0
      e := hs.getD 4 0, f := hs.getD 5 0, g := hs.getD 6 0, h := hs.getD 7 0 }
  let stf := (shaK.zip ws).foldl (fun st p => roundStep st p.1 p.2) st0
  [w32 (hs.getD 0 0 + stf.a), w32 (hs.getD 1 0 + stf.b), w32 (hs.getD 2 0 + stf.c),
   w32 (hs.getD 3 0 + stf.d), w32 (hs.getD 4 0 + stf.e), w32 (hs.getD 5 0 + stf.f),
   w32 (hs.getD 6 0 + stf.g), w32 (hs.getD 7 0 + stf.h)]

/-- Big-endian 8-byte encoding of the bit length. -/
def be64 (n : Nat) : List Nat :=
  [n / 2 ^ 56 % 256, n / 2 ^ 48 % 256, n / 2 ^ 40 % 256, n / 2 ^ 32 % 256,
   n / 2 ^ 24 % 256, n / 2 ^ 16 % 256, n / 2 ^ 8 % 256, n % 256]

/-- SHA-256 padding: `0x80`, zeros to 56 mod 64, 8-byte bit length. -/
def padMessage (msg : List Nat) : List Nat :=
  let l := msg.length
  let zeros := (64 - (l + 9) % 64) % 64
  msg ++ [0x80] ++ List.replicate zeros 0 ++ be64 (8 * l)

/-- Group bytes into big-endian 32-bit words. -/
def bytesToWords : List Nat → List Nat
  | b0 :: b1 :: b2 :: b3 :: rest => (((b0 * 256 + b1) * 256 + b2) * 256 + b3) :: bytesToWords rest
  | _ => []

/-- Split a word list into 16-word blocks (`k` = number of blocks). -/
def chunk16 : Nat → List Nat → List (List Nat)
  | 0, _ => []
  | k + 1, ws => ws.take 16 :: chunk16 k (ws.drop 16)

/-- SHA-256 of a byte sequence, as eight 32-bit words. -/
def sha256Words (msg : List Nat) : List Nat :=
  let ws := bytesToWords (padMessage msg)
  (chunk16 (ws.length / 16) ws).foldl compressBlock shaH0

def hexDigit (n : Nat) : Char := if n < 10 then Char.ofNat (48 + n) else Char.ofNat (87 + n)

/-- Eight lowercase hex digits of one 32-bit word. -/
def hex8 (w : Nat) : List Char :=
  [hexDigit (w / 2 ^ 28 % 16), hexDigit (w / 2 ^ 24 % 16), hexDigit (w / 2 ^ 20 % 16),
   hexDigit (w / 2 ^ 16 % 16), hexDigit (w / 2 ^ 12 % 16), hexDigit (w / 2 ^ 8 % 16),
   hexDigit (w / 2 ^ 4 % 16), hexDigit (w % 16)]

/-- `hashlib.sha256(msg).hexdigest()`. -/
def sha256Hex (msg : List Nat) : String :=
  String.mk (((sha256Words msg).map hex8).flatten)

/-- SHA-256 digest as 32 bytes. -/
def sha256Bytes (msg : List Nat) : List Nat :=
  ((sha256Words msg).map (fun w => [w / 2 ^ 24 % 256, w / 2 ^ 16 % 256, w / 2 ^ 8 % 256, w % 256])).flatten

/-- UTF-8 encoding of one character. -/
def utf8Char (c : Char) : List Nat :=
  let n := c.toNat
  if n < 0x80 then [n]
  else if n < 0x800 then [0xC0 + n / 64, 0x80 + n % 64]
  else if n < 0x10000 then [0xE0 + n / 4096, 0x80 + n / 64 % 64, 0x80 + n % 64]
  else [0xF0 + n / 262144, 0x80 + n / 4096 % 64, 0x80 + n / 64 % 64, 0x80 + n % 64]

/-- `str.encode()` — UTF-8 bytes of a string. -/
def strBytes (s : String) : List Nat := (s.data.map utf8Char).flatten

/-- Four uppercase-free hex digits (for `\uXXXX` escapes). -/
def hex4 (n : Nat) : String :=
  String.mk [hexDigit (n / 4096 % 16), hexDigit (n / 256 % 16), hexDigit (n / 16 % 16), hexDigit (n % 16)]

/-- `json.dumps` escaping of one character (default `ensure_ascii=True`):
the two-character escapes for quote, backslash and common controls, `\u`
escapes for other controls and all non-ASCII (with surrogate pairs above
the BMP). -/
def jsonEscapeChar (c : Char) : String :=
  let n := c.toNat
  if c = '"' then "\\\""
  else if c = '\\' then "\\\\"
  else if n = 10 then "\\n"
  else if n = 9 then "\\t"
  else if n = 13 then "\\r"
  else if n = 8 then "\\b"
  else if n = 12 then "\\f"
  else if n < 32 then "\\u" ++ hex4 n
  else if n < 127 then String.mk [c]
  else if n < 0x10000 then "\\u" ++ hex4 n
  else
    "\\u" ++ hex4 (0xD800 + (n - 0x10000) / 1024) ++ "\\u" ++ hex4 (0xDC00 + (n - 0x10000) % 1024)

/-- `json.dumps` of a string. -/
def jsonString (s : String) : String :=
  "\"" ++ String.join (s.data.map jsonEscapeChar) ++ "\""

/-- `json.dumps(l, sort_keys=True)` for a list of strings: the default
`", "` item separator; `sort_keys` only affects dicts and leaves the list
order untouched. -/
def jsonDumpsStrList (l : List String) : String :=
  "[" ++ String.intercalate ", " (l.map jsonString) ++ "]"

/-- `IAMExecutor._attach_deny_policy` policy-name computation
(executor_iam.py:195-199): first 8 hex digits of the SHA-256 of the JSON
serialization of the deny-action list as given (not sorted), prefixed with
the policy id. -/
def policyName (deny_actions : List String) (policy_id : String) : String :=
  let policy_hash := (sha256Hex (strBytes (jsonDumpsStrList deny_actions))).take 8
  "guardrails-deny-" ++ policy_id ++ "-" ++ policy_hash

/-- `hmac.new(key, msg, hashlib.sha256).hexdigest()`. -/
def hmacSha256Hex (key msg : String) : String :=
  let kb := strBytes key
  let k0 := if 64 < kb.length then sha256Bytes kb else kb
  let kp := k0 ++ List.replicate (64 - k0.length) 0
  let inner := sha256Bytes ((kp.map (fun b => xor8 b 0x36)) ++ strBytes msg)
  let outer := (kp.map (fun b => xor8 b 0x5c)) ++ inner
  sha256Hex outer

/-! ## Approval signature and freshness (`handlers/approval_webhook.py`) -/

/-- `ApprovalWebhookHandler._generate_signature` (approval_webhook.py:217):
HMAC-SHA256 over `"{execution_id}:{timestamp}"` keyed by the shared
secret. -/
def generate_signature (secret execution_id timestamp : String) : String :=
  hmacSha256Hex secret (execution_id ++ ":" ++ timestamp)

/-- `ApprovalWebhookHandler._verify_signature` (approval_webhook.py:203):
`hmac.compare_digest` is equality (its constant-time property is not a
functional behaviour). -/
def verify_signature (secret execution_id timestamp signature : String) : Bool :=
  generate_signature secret execution_id timestamp == signature

/-- `ApprovalWebhookHandler._is_expired` (approval_webhook.py:235).
The `datetime.fromisoformat` parse of the timestamp string is abstracted
into the `Option Int` argument: `none` is an unparsable timestamp (the
`ValueError`/`AttributeError` branch), `some t` the parsed time in
microseconds.  `age > timedelta(hours=timeout)` — expired iff the age
strictly exceeds the window. -/
def is_expired (ts : Option Int) (now : Int) (timeout_hours : Nat) : Bool :=
  match ts with
  | some t => decide ((timeout_hours : Int) * 3600000000 < now - t)
  | none => true

/-! ## IAM executor (`executor_iam.py`)

The boto3 IAM client is embedded as an explicit backend state.  AWS-side
`ClientError`s are external nondeterminism, made explicit as the
`attach_fail` / `detach_fail` maps: an API call touching a mapped
principal raises the mapped message. -/

structure IAMBackend where
  account_id : String
  policy_arns : List String
  role_attached : List (String × String)
  user_attached : List (String × String)
  group_attached : List (String × String)
  attach_fail : List (String × String)
  detach_fail : List (String × String)
deriving DecidableEq, Repr

/-- `IAMExecutor._parse_principal_arn` (executor_iam.py:363). -/
def parse_principal_arn (arn : String) : Except String (String × String) :=
  let parts := splitOnChar arn ':'
  if parts.length ≠ 6 || parts.getD 2 "" ≠ "iam" then
    .error ("Invalid IAM ARN: " ++ arn)
  else
    let resource := parts.getD 5 ""
    let segments := splitOnChar resource '/'
    if segments.length < 2 then .error ("Invalid IAM resource: " ++ resource)
    else
      let principal_type := segments.getD 0 ""
      let principal_name := String.intercalate "/" segments.tail
      if principal_type ≠ "role" && principal_type ≠ "user" then
        .error ("Unsupported principal type: " ++ principal_type)
      else .ok (principal_type, principal_name)

/-- `IAMExecutor._list_attached_policies` (executor_iam.py:392): attached
managed-policy ARNs of a role or user. -/
def list_attached (b : IAMBackend) (principal_type principal_name : String) : List String :=
  if principal_type == "role" then
    (b.role_attached.filter (fun p => p.1 == principal_name)).map (fun p => p.2)
  else if principal_type == "user" then
    (b.user_attached.filter (fun p => p.1 == principal_name)).map (fun p => p.2)
  else []

/-- `attach_role_policy` / `attach_user_policy`: attaching an
already-attached managed policy is a no-op on AWS. -/
def addAttachment (l : List (String × String)) (principal_name policy_arn : String) :
    List (String × String) :=
  if l.contains (principal_name, policy_arn) then l else l ++ [(principal_name, policy_arn)]

/-- `IAMExecutor._attach_deny_policy` (executor_iam.py:163): parse the
principal, derive the deterministic policy name, create-or-reuse the
managed policy, record before/after attachment lists.  Returns the
(possibly partially mutated) backend together with the diff or the raised
error. -/
def attach_deny_policy (b : IAMBackend) (principal_arn : String) (deny_actions : List String)
    (policy_id : String) : IAMBackend × Except String Dict :=
  match parse_principal_arn principal_arn with
  | .error e => (b, .error e)
  | .ok (ptype, pname) =>
    let policy_name := policyName deny_actions policy_id
    let candidate := "arn:aws:iam::" ++ b.account_id ++ ":policy/" ++ policy_name
    let b1 :=
      if b.policy_arns.contains candidate then b
      else { b with policy_arns := b.policy_arns ++ [candidate] }
    let before := list_attached b1 ptype pname
    match lookupStr b.attach_fail principal_arn with
    | some msg => (b1, .error msg)
    | none =>
      let b2 :=
        if ptype == "role" then
          { b1 with role_attached := addAttachment b1.role_attached pname candidate }
        else
          { b1 with user_attached := addAttachment b1.user_attached pname candidate }
      let after := list_attached b2 ptype pname
      (b2,
       .ok [("policy_arn", .s candidate), ("policy_name", .s policy_name),
            ("principal_arn", .s principal_arn), ("principal_type", .s ptype),
            ("principal_name", .s pname), ("before", .sl before), ("after", .sl after),
            ("denied_actions", .sl deny_actions)])

/-- `IAMExecutor._execute_single_action` (executor_iam.py:75).  Execution
ids are `exec-<uuid4>` in the source; the uuid draw is embedded as the
`ctr` counter.  An `Except.error` result is the uncaught `ValueError` of
the source (empty deny list / unsupported action type); errors of the
attach call itself are caught and recorded as a failed execution. -/
def execute_single_action (b : IAMBackend) (dry_run : Bool) (action : PolicyAction)
    (principal_arn policy_id event_id executed_by : String) (ttl_minutes : Option Nat)
    (now : Int) (ctr : Nat) : IAMBackend × Except String ActionExecution :=
  let execution0 : ActionExecution :=
    { execution_id := "exec-" ++ toString ctr
      policy_id := policy_id
      event_id := event_id
      status := "planned"
      executed_at := none
      executed_by := executed_by
      action := action.type
      target := principal_arn
      diff := []
      ttl_expires_at := none
      rolled_back_at := none }
  if action.type == "notify_only" then
    (b, .ok { execution0 with
              status := "executed"
              executed_at := some now
              diff := [("action", .s "notify_only"), ("no_changes", .b true)] })
  else if action.type == "attach_deny_policy" then
    match action.deny with
    | none => (b, .error "attach_deny_policy requires deny list")
    | some [] => (b, .error "attach_deny_policy requires deny list")
    | some deny =>
      if dry_run then
        (b, .ok { execution0 with
                  status := "executed"
                  executed_at := some now
                  diff := [("dry_run", .b true), ("would_deny", .sl deny),
                           ("target", .s principal_arn)] })
      else
        match attach_deny_policy b principal_arn deny policy_id with
        | (b', .ok d) =>
          let ttlv : Option Int :=
            match ttl_minutes with
            | some n => if 0 < n then some (now + 60000000 * (n : Int)) else none
            | none => none
          (b', .ok { execution0 with
                     status := "executed"
                     executed_at := some now
                     diff := d
                     ttl_expires_at := ttlv })
        | (b', .error e) =>
          (b', .ok { execution0 with status := "failed", diff := [("error", .s e)] })
  else (b, .error ("Unsupported action type: " ++ action.type))

/-- Inner loop of `IAMExecutor.execute_action_plan`: one action over every
target principal, in order; a raised `ValueError` aborts the remainder. -/
def exec_principals (b : IAMBackend) (dry_run : Bool) (action : PolicyAction)
    (policy_id event_id executed_by : String) (ttl_minutes : Option Nat) (now : Int) :
    List String → Nat → IAMBackend × Nat × Except String (List ActionExecution)
  | [], ctr => (b, ctr, .ok [])
  | p :: ps, ctr =>
    match execute_single_action b dry_run action p policy_id event_id executed_by
        ttl_minutes now ctr with
    | (b', .error e) => (b', ctr + 1, .error e)
    | (b', .ok x) =>
      match exec_principals b' dry_run action policy_id event_id executed_by ttl_minutes now
          ps (ctr + 1) with
      | (b'', c'', .error e) => (b'', c'', .error e)
      | (b'', c'', .ok xs) => (b'', c'', .ok (x :: xs))

/-- Outer loop of `IAMExecutor.execute_action_plan`: every action, every
principal, in input order. -/
def exec_actions (b : IAMBackend) (dry_run : Bool)
    (policy_id event_id executed_by : String) (ttl_minutes : Option Nat) (now : Int)
    (principals : List String) :
    List PolicyAction → Nat → IAMBackend × Nat × Except String (List ActionExecution)
  | [], ctr => (b, ctr, .ok [])
  | a :: as, ctr =>
    match exec_principals b dry_run a policy_id event_id executed_by ttl_minutes now
        principals ctr with
    | (b', c', .error e) => (b', c', .error e)
    | (b', c', .ok xs) =>
      match exec_actions b' dry_run policy_id event_id executed_by ttl_minutes now principals
          as c' with
      | (b'', c'', .error e) => (b'', c'', .error e)
      | (b'', c'', .ok ys) => (b'', c'', .ok (xs ++ ys))

/-- `IAMExecutor.execute_action_plan` (executor_iam.py:34).  The
precondition `ValueError`s mirror the source: unmatched plan, or a falsy
`matched_policy_id` / empty action list. -/
def execute_action_plan (b : IAMBackend) (dry_run : Bool) (plan : ActionPlan)
    (event_id executed_by : String) (now : Int) :
    IAMBackend × Except String (List ActionExecution) :=
  if !plan.matched then (b, .error "Cannot execute unmatched plan")
  else if (match plan.matched_policy_id with
           | none => true
           | some s => s == "") || plan.actions.isEmpty then
    (b, .error "Plan must have policy_id and actions")
  else
    let pid := (plan.matched_policy_id.getD "")
    match exec_actions b dry_run pid event_id executed_by plan.ttl_minutes now
        plan.target_principals plan.actions 0 with
    | (b', _, .error e) => (b', .error e)
    | (b', _, .ok xs) => (b', .ok xs)

/-- `IAMExecutor._rollback_attach_deny_policy` (executor_iam.py:302):
detach the recorded policy from the recorded principal, then — when the
ARN contains the `guardrails-deny-` marker — delete the managed policy if
no entity still references it (list/delete `ClientError`s are caught and
ignored in the source, so those two calls never raise here). -/
def rollback_attach (b : IAMBackend) (x : ActionExecution) : IAMBackend × Except String Unit :=
  if jvalTruthy (dictGet x.diff "dry_run") then (b, .ok ())
  else
    let policy_arn := dictGetStr x.diff "policy_arn"
    let ptype := dictGetStr x.diff "principal_type"
    let pname := dictGetStr x.diff "principal_name"
    if policy_arn == "" || ptype == "" || pname == "" then
      (b, .error "Execution diff missing required fields for rollback")
    else
      match lookupStr b.detach_fail pname with
      | some msg => (b, .error msg)
      | none =>
        let b1 :=
          if ptype == "role" then
            { b with role_attached :=
                b.role_attached.filter (fun p => !(p.1 == pname && p.2 == policy_arn)) }
          else if ptype == "user" then
            { b with user_attached :=
                b.user_attached.filter (fun p => !(p.1 == pname && p.2 == policy_arn)) }
          else b
        if strContainsSub policy_arn "guardrails-deny-" then
          let attached_count :=
            (b1.role_attached.filter (fun p => p.2 == policy_arn)).length +
            (b1.user_attached.filter (fun p => p.2 == policy_arn)).length +
            (b1.group_attached.filter (fun p => p.2 == policy_arn)).length
          if attached_count = 0 then
            ({ b1 with policy_arns := b1.policy_arns.filter (fun a => a ≠ policy_arn) }, .ok ())
          else (b1, .ok ())
        else (b1, .ok ())

/-- `IAMExecutor.rollback_execution` (executor_iam.py:256).  Returns the
success flag together with the (mutated-in-place in the source) execution
and backend. -/
def rollback_execution (b : IAMBackend) (dry_run : Bool) (x : ActionExecution) (now : Int) :
    Bool × ActionExecution × IAMBackend :=
  if x.status ≠ "executed" then (false, x, b)
  else if dry_run then (true, x, b)
  else if x.action == "attach_deny_policy" then
    match rollback_attach b x with
    | (b', .ok _) => (true, { x with status := "rolled_back", rolled_back_at := some now }, b')
    | (b', .error _) => (false, x, b')
  else if x.action == "notify_only" then
    (true, { x with status := "rolled_back", rolled_back_at := some now }, b)
  else (false, x, b)

/-! ## Audit store (`audit_store.py`)

The DynamoDB table is a list of execution records keyed by
`execution_id`.  `put_item` overwrites every record under the key, or
inserts when absent; ISO-8601 string comparison on `ttl_expires_at`
coincides with chronological comparison for the uniform format the code
writes, so the embedding compares the microsecond timestamps directly. -/

abbrev Store := List ActionExecution

/-- `AuditStore.get_execution` (audit_store.py:62). -/
def get_execution (store : Store) (execution_id : String) : Option ActionExecution :=
  store.find? (fun x => x.execution_id == execution_id)

/-- `AuditStore.update_execution` / `save_execution` — both are
`put_item` (audit_store.py:40,84). -/
def update_execution (store : Store) (x : ActionExecution) : Store :=
  if store.any (fun y => y.execution_id == x.execution_id) then
    store.map (fun y => if y.execution_id == x.execution_id then x else y)
  else store ++ [x]

/-- `AuditStore.query_expired_executions` (audit_store.py:131): scan with
`attribute_exists(ttl_expires_at) AND ttl_expires_at <= :current_time AND
status = "executed"`. -/
def query_expired_executions (store : Store) (now : Int) : List ActionExecution :=
  store.filter (fun x =>
    match x.ttl_expires_at with
    | some t => decide (t ≤ now) && x.status == "executed"
    | none => false)

/-! ## TTL cleanup handler (`handlers/ttl_cleanup.py`) -/

/-- The counters returned by `cleanup_expired_executions`.  `errors` is
only appended to on unexpected per-candidate exceptions, which the
deterministic embedding cannot raise, and on a failing query, which the
list-based store cannot produce. -/
structure CleanupResult where
  total_found : Nat
  rolled_back : Nat
  failed : Nat
  skipped : Nat
  errors : List String
deriving DecidableEq, Repr

/-- `TTLCleanupHandler._rollback_execution` (ttl_cleanup.py:152): status
re-check, executor rollback, then persist `rolled_back` on success or
`failed` (with a `rollback_error` annotation) on a `False` return. -/
def rollback_one (store : Store) (b : IAMBackend) (dry : Bool) (now : Int)
    (x : ActionExecution) : String × Store × IAMBackend :=
  if x.status ≠ "executed" then ("skipped", store, b)
  else
    match rollback_execution b dry x now with
    | (true, x', b') =>
      let x2 := { x' with status := "rolled_back", rolled_back_at := some now }
      ("rolled_back", update_execution store x2, b')
    | (false, x', b') =>
      let d2 := dictSet x'.diff "rollback_error" (.s "Rollback returned False")
      let x2 := { x' with status := "failed", diff := d2 }
      ("failed", update_execution store x2, b')

/-- The per-candidate loop of `cleanup_expired_executions`
(ttl_cleanup.py:102-122), counting each outcome. -/
def process_expired (dry : Bool) (now : Int) :
    List ActionExecution → Store → IAMBackend → Nat × Nat × Nat × Store × IAMBackend
  | [], store, b => (0, 0, 0, store, b)
  | x :: xs, store, b =>
    match rollback_one store b dry now x with
    | (r, store', b') =>
      match process_expired dry now xs store' b' with
      | (rb, fl, sk, store'', b'') =>
        if r == "rolled_back" then (rb + 1, fl, sk, store'', b'')
        else if r == "skipped" then (rb, fl, sk + 1, store'', b'')
        else if r == "failed" then (rb, fl + 1, sk, store'', b'')
        else (rb, fl, sk, store'', b'')

/-- `TTLCleanupHandler.cleanup_expired_executions` (ttl_cleanup.py:53):
query, cap to the batch size, process each candidate independently,
report counters (`total_found` is the length of the capped batch). -/
def cleanup_expired_executions (store : Store) (b : IAMBackend) (dry : Bool)
    (batch_size : Nat) (now : Int) : CleanupResult × Store × IAMBackend :=
  let expired := query_expired_executions store now
  if expired.isEmpty then
    ({ total_found := 0, rolled_back := 0, failed := 0, skipped := 0, errors := [] }, store, b)
  else
    let batchL := if batch_size < expired.length then expired.take batch_size else expired
    match process_expired dry now batchL store b with
    | (rb, fl, sk, store', b') =>
      ({ total_found := batchL.length, rolled_back := rb, failed := fl, skipped := sk,
         errors := [] }, store', b')

/-! ## Approval webhook handler (`handlers/approval_webhook.py`) -/

structure ApprovalConfig where
  approval_secret : String
  approval_timeout_hours : Nat
deriving DecidableEq, Repr

/-- The `{"statusCode": ..., "body": ...}` responses of
`handle_approval`. -/
structure ApprovalResponse where
  statusCode : Nat
  body : String
deriving DecidableEq, Repr

/-- `json.dumps` of the success body of `handle_approval`
(approval_webhook.py:166-175). -/
def approvalOkBody (execution_id status : String) : String :=
  "\x7b\"message\": \"Guardrail applied successfully\", \"execution_id\": " ++
    jsonString execution_id ++ ", \"status\": " ++ jsonString status ++ "\x7d"

/-- The `except` branch of `handle_approval` (approval_webhook.py:177-184):
mark the stored record failed, replace its diff with the error, persist,
answer 500. -/
def approvalExceptBranch (store : Store) (b : IAMBackend) (x : ActionExecution) (e : String) :
    ApprovalResponse × Store × IAMBackend :=
  let x' := { x with status := "failed", diff := [("error", JVal.s e)] }
  ({ statusCode := 500, body := "Execution failed: " ++ e }, update_execution store x', b)

/-- `ApprovalWebhookHandler.handle_approval` (approval_webhook.py:59).
`parsedTs` is the `datetime.fromisoformat` view of `timestamp` (see
`is_expired`); `dry_run` is the injected executor's mode (`False` for the
default `IAMExecutor()`).  The pydantic constructor validations that the
`try` block can raise — a non-literal action type, a blocklisted action
in the rebuilt `PolicyAction`'s deny list (`validate_deny_actions`), and
a falsy `matched_policy_id` — are the explicit guards before the
executor call, in pydantic's validation order (`PolicyAction` is
constructed before `ActionPlan`); each raise is caught at
approval_webhook.py:177 and becomes a failed record plus a 500.  The
pydantic `ValidationError` wrapper around the raised `ValueError`
message is abstracted to the raw message. -/
def handle_approval (cfg : ApprovalConfig) (store : Store) (b : IAMBackend) (dry_run : Bool)
    (execution_id signature timestamp : String) (parsedTs : Option Int) (now : Int)
    (user : String) : ApprovalResponse × Store × IAMBackend :=
  if !verify_signature cfg.approval_secret execution_id timestamp signature then
    ({ statusCode := 403, body := "Invalid signature" }, store, b)
  else if is_expired parsedTs now cfg.approval_timeout_hours then
    ({ statusCode := 410, body := "Approval link expired" }, store, b)
  else
    match get_execution store execution_id with
    | none => ({ statusCode := 404, body := "Execution not found" }, store, b)
    | some x =>
      if x.status ≠ "planned" then
        ({ statusCode := 409, body := "Already processed (status: " ++ x.status ++ ")" },
         store, b)
      else
        let wd := match dictGet x.diff "would_deny" with
                  | some (.sl l) => l
                  | _ => []
        let deny_actions :=
          if wd.isEmpty then
            match dictGet x.diff "policy_document" with
            | some (.stmts (st :: _)) => st
            | _ => []
          else wd
        if deny_actions.isEmpty && x.action == "attach_deny_policy" then
          ({ statusCode := 500, body := "No deny actions found in execution record" }, store, b)
        else if x.action ≠ "attach_deny_policy" && x.action ≠ "notify_only" then
          approvalExceptBranch store b x ("validation error: unsupported action " ++ x.action)
        else
          match firstDangerous deny_actions with
          | some a =>
            approvalExceptBranch store b x
              ("Dangerous action '" ++ a ++ "' not allowed in deny list. " ++
               "AutoGuardRails only supports safe, reversible actions.")
          | none =>
            if x.policy_id == "" then
              approvalExceptBranch store b x "matched_policy_id is required when matched=True"
            else
              let plan : ActionPlan :=
                { matched := true
                  matched_policy_id := some x.policy_id
                  mode := some "manual"
                  actions := [{ type := x.action,
                                deny := if deny_actions.isEmpty then none
                                        else some deny_actions }]
                  ttl_minutes := some 0
                  target_principals := [x.target] }
              match execute_action_plan b dry_run plan x.event_id ("user:" ++ user) now with
              | (b', .error e) => approvalExceptBranch store b' x e
              | (b', .ok []) => ({ statusCode := 500, body := "Execution failed" }, store, b')
              | (b', .ok (e0 :: _)) =>
                let newx := { e0 with execution_id := execution_id }
                ({ statusCode := 200, body := approvalOkBody execution_id newx.status },
                 update_execution store newx, b')

/-! ## Concrete scenario constants used by witnesses and counterexamples -/

/-- The scenario event of spec §8: source=budgets, account=123456789012,
amount=800. -/
def wEvt : CostEvent :=
  { event_id := "evt-1"
    source := "budgets"
    account_id := "123456789012"
    amount := 800
    time_window := "2025-01"
    details := [] }

def wClock : Clock := { day := "wed", usOfDay := 0 }

def wMatch : PolicyMatch :=
  { source := ["budgets"]
    account_ids := ["123456789012"]
    min_amount_usd := 100
    max_amount_usd := none
    services := none
    regions := none }

def wScope : PolicyScope :=
  { principals := [{ type := "iam_role", arn := "arn:aws:iam::123456789012:role/ci-deployer" }]
    regions := none }

def wDenyAction : PolicyAction :=
  { type := "attach_deny_policy", deny := some ["ec2:RunInstances"] }

def wPol1 : GuardrailPolicy :=
  { policy_id := "p1"
    enabled := true
    mode := "manual"
    ttl_minutes := 180
    match_ := wMatch
    scope := wScope
    actions := [wDenyAction]
    exceptions := none }

def wPol2 : GuardrailPolicy := { wPol1 with policy_id := "p2", mode := "auto" }

/-- A policy whose exception allowlist exempts the scenario event's
account. -/
def wExemptPol : GuardrailPolicy :=
  { wPol1 with
    policy_id := "p3"
    exceptions := some { accounts := some ["123456789012"], principals := none, time_windows := none } }

/-- A matched two-principal attach plan (for the failure-isolation
scenario). -/
def wPlanTwo : ActionPlan :=
  { matched := true
    matched_policy_id := some "p1"
    mode := some "auto"
    actions := [wDenyAction]
    ttl_minutes := some 180
    target_principals := ["arn:aws:iam::123456789012:role/ci-deployer",
                          "arn:aws:iam::123456789012:user/dev-user"] }

def wBackend0 : IAMBackend :=
  { account_id := "123456789012"
    policy_arns := []
    role_attached := []
    user_attached := []
    group_attached := []
    attach_fail := []
    detach_fail := [] }

/-- Backend on which the attach call for the second principal of
`wPlanTwo` raises a `ClientError`. -/
def wFailBackend : IAMBackend :=
  { wBackend0 with
    attach_fail := [("arn:aws:iam::123456789012:user/dev-user", "AccessDenied")] }

def wCfg : ApprovalConfig :=
  { approval_secret := "default-secret-CHANGE-ME", approval_timeout_hours := 1 }

/-- The planned execution records created by the manual-mode planning path
of `handlers/budgets_event.py` (lines 309-329): execute the matched plan
with a dry-run executor, override every status to `planned`, save all. -/
def wPlanned : List ActionExecution :=
  match execute_action_plan wBackend0 true (evaluate wEvt [wPol1] wClock) "evt-1"
      "system:budgets_event" 0 with
  | (_, .ok xs) => xs.map (fun x => { x with status := "planned" })
  | (_, .error _) => []

def wStore0 : Store := wPlanned.foldl update_execution []

/-- The planned record awaiting approval. -/
def wPlanned0 : ActionExecution := wPlanned.headD default

/-- A planned record whose stored `would_deny` carries a blocklisted
action (only constructible by tampering with the store — policy loading
rejects such lists at construction time). -/
def wBlockedPlanned : ActionExecution :=
  { wPlanned0 with
    diff := [("dry_run", JVal.b true), ("would_deny", JVal.sl ["s3:DeleteBucket"]),
             ("target", JVal.s "arn:aws:iam::123456789012:role/ci-deployer")] }

def wBlockedStore : Store := [wBlockedPlanned]

def wTs : String := "2025-01-15T10:00:00"

/-- A valid approval-link signature for the planned record. -/
def wSig : String := generate_signature "default-secret-CHANGE-ME" "exec-0" wTs

/-- The approval of the planned record through the webhook handler with a
real (non-dry-run) executor. -/
def wApprovalOut : ApprovalResponse × Store × IAMBackend :=
  handle_approval wCfg wStore0 wBackend0 false "exec-0" wSig wTs (some 0) 0 "alice"

/-- An already-executed attach record (used for rollback scenarios). -/
def wExecuted : ActionExecution :=
  { execution_id := "exec-9"
    policy_id := "p1"
    event_id := "evt-1"
    status := "executed"
    executed_at := some 0
    executed_by := "system:auto"
    action := "attach_deny_policy"
    target := "arn:aws:iam::123456789012:role/ci-deployer"
    diff := [("policy_arn", .s "arn:aws:iam::123456789012:policy/guardrails-deny-p1-aaaaaaaa"),
             ("principal_type", .s "role"), ("principal_name", .s "ci-deployer")]
    ttl_expires_at := some 5
    rolled_back_at := none }

def wExp2 : ActionExecution :=
  { wExecuted with
    execution_id := "exec-b"
    diff := [("policy_arn", .s "arn:aws:iam::123456789012:policy/guardrails-deny-p1-bbbbbbbb"),
             ("principal_type", .s "role"), ("principal_name", .s "ci-deployer")] }

/-- Store with two executed records whose TTL has expired. -/
def wStoreTwo : Store := [wExecuted, wExp2]

def wBackendTwo : IAMBackend :=
  { wBackend0 with
    policy_arns := ["arn:aws:iam::123456789012:policy/guardrails-deny-p1-aaaaaaaa",
                    "arn:aws:iam::123456789012:policy/guardrails-deny-p1-bbbbbbbb"]
    role_attached := [("ci-deployer", "arn:aws:iam::123456789012:policy/guardrails-deny-p1-aaaaaaaa"),
                      ("ci-deployer", "arn:aws:iam::123456789012:policy/guardrails-deny-p1-bbbbbbbb")] }

/-- Store with a single expired executed record. -/
def wStoreOne : Store := [wExecuted]

def wBackendOne : IAMBackend :=
  { wBackend0 with
    policy_arns := ["arn:aws:iam::123456789012:policy/guardrails-deny-p1-aaaaaaaa"]
    role_attached := [("ci-deployer", "arn:aws:iam::123456789012:policy/guardrails-deny-p1-aaaaaaaa")] }

set_option maxRecDepth 16000

/-! ## Theorems: approval freshness (C2) -/

/-- C2 (corrected): `_is_expired` is a strict-greater-than check on the
age, so the validity window is `age ≤ timeout` — a timestamp exactly at
the window bound is still valid, one whose age strictly exceeds the
window is expired, and an unparsable timestamp is always treated as
expired. -/
theorem is_expired_strict_gt (t now : Int) (h : Nat) :
    (is_expired (some t) now h = true ↔ (h : Int) * 3600000000 < now - t) ∧
    is_expired none now h = true := by
  constructor
  · simp [is_expired]
  · rfl

/-- Counterexample to C2 as stated: a timestamp whose age exactly equals
the default 1-hour expiration window is NOT treated as expired. -/
theorem is_expired_boundary_counterexample :
    is_expired (some 0) 3600000000 1 = false := by decide

/-! ## Theorems: deny-policy key (C3) -/

/-- Counterexample to C3 as stated: two deny-action lists that are
permutations of each other, with the same policy id, produce different
policy names — `json.dumps(deny_actions, sort_keys=True)` does not sort a
list, so the hash is over the list in its given order. -/
theorem policy_name_permutation_counterexample :
    List.Perm ["ec2:RunInstances", "ec2:CreateNatGateway"]
      ["ec2:CreateNatGateway", "ec2:RunInstances"] ∧
    policyName ["ec2:RunInstances", "ec2:CreateNatGateway"] "test-policy" ≠
      policyName ["ec2:CreateNatGateway", "ec2:RunInstances"] "test-policy" := by
  constructor
  · decide
  · decide

/-- C3 (corrected): the deny-policy key is a deterministic hash of the
JSON serialization of the deny-action list in its given order plus the
policy id — two equal (same-order) lists with the same policy id give the
identical key, and re-invoking `_attach_deny_policy` when the managed
policy under that key already exists creates no new managed policy. -/
theorem policy_key_deterministic (d₁ d₂ : List String) (pid₁ pid₂ : String)
    (h₁ : d₁ = d₂) (h₂ : pid₁ = pid₂) :
    policyName d₁ pid₁ = policyName d₂ pid₂ ∧
    (∀ b : IAMBackend, ∀ arn : String,
      b.policy_arns.contains
        ("arn:aws:iam::" ++ b.account_id ++ ":policy/" ++ policyName d₁ pid₁) = true →
      (attach_deny_policy b arn d₂ pid₂).1.policy_arns = b.policy_arns) := by
  subst h₁
  subst h₂
  refine ⟨rfl, ?_⟩
  intro b arn hc
  unfold attach_deny_policy
  cases hp : parse_principal_arn arn with
  | error e => rfl
  | ok pr =>
    obtain ⟨pt, pn⟩ := pr
    simp only [hc, if_true]
    cases hf : lookupStr b.attach_fail arn with
    | some m => rfl
    | none =>
      dsimp only
      split <;> rfl

/-- Witness for C3: the determinism and same-key-reuse conclusions at a
concrete list, policy id and backend already holding the keyed policy. -/
theorem policy_key_deterministic_witness :
    policyName ["ec2:RunInstances"] "p1" = policyName ["ec2:RunInstances"] "p1" ∧
    (attach_deny_policy
        { wBackend0 with policy_arns :=
            ["arn:aws:iam::" ++ wBackend0.account_id ++ ":policy/" ++
              policyName ["ec2:RunInstances"] "p1"] }
        "arn:aws:iam::123456789012:role/ci-deployer" ["ec2:RunInstances"] "p1").1.policy_arns =
      ["arn:aws:iam::" ++ wBackend0.account_id ++ ":policy/" ++ policyName ["ec2:RunInstances"] "p1"] :=
  ⟨(policy_key_deterministic ["ec2:RunInstances"] ["ec2:RunInstances"] "p1" "p1" rfl rfl).1,
   (policy_key_deterministic ["ec2:RunInstances"] ["ec2:RunInstances"] "p1" "p1" rfl rfl).2
     { wBackend0 with policy_arns :=
         ["arn:aws:iam::" ++ wBackend0.account_id ++ ":policy/" ++
           policyName ["ec2:RunInstances"] "p1"] }
     "arn:aws:iam::123456789012:role/ci-deployer"
     (by simp [List.contains_cons])⟩

/-! ## Theorems: policy engine -/

/-- Helper: `evaluate` returns the plan of the first enabled, matching
policy found in input order, and the unmatched plan otherwise. -/
theorem evaluate_eq_find (e : CostEvent) (ps : List GuardrailPolicy) (now : Clock) :
    evaluate e ps now =
      (match ps.find? (fun q => q.enabled && match_event e q now) with
       | some p => build_action_plan p
       | none => unmatchedPlan) := by
  induction ps with
  | nil => rfl
  | cons p ps ih =>
    cases he : p.enabled with
    | false => simpa [evaluate, he, List.find?_cons] using ih
    | true =>
      cases hm : match_event e p now with
      | false => simpa [evaluate, he, hm, List.find?_cons] using ih
      | true => simp [evaluate, he, hm, List.find?_cons, build_action_plan]

/-- C5: `evaluate` iterates the policies in caller-supplied order, skips
disabled policies, and returns the plan built from the first enabled
policy the matcher accepts — copying that policy's mode, actions and
ttl_minutes verbatim and flattening its scope principals; if no enabled
policy matches, the returned plan has `matched = false`.  First-match-wins
and disabled-never-matches are both captured by the `find?` predicate. -/
theorem evaluate_first_match_wins (e : CostEvent) (ps : List GuardrailPolicy) (now : Clock) :
    (∀ p : GuardrailPolicy,
        ps.find? (fun q => q.enabled && match_event e q now) = some p →
        evaluate e ps now =
          { matched := true
            matched_policy_id := some p.policy_id
            mode := some p.mode
            actions := p.actions
            ttl_minutes := some p.ttl_minutes
            target_principals := p.scope.principals.map (fun q => q.arn) }) ∧
    (ps.find? (fun q => q.enabled && match_event e q now) = none →
        evaluate e ps now = unmatchedPlan) := by
  constructor
  · intro p hp
    rw [evaluate_eq_find, hp]
    rfl
  · intro hn
    rw [evaluate_eq_find, hn]

/-- Witness for C5: with two enabled matching policies, the returned
plan's fields are those of the first in input order. -/
theorem evaluate_first_match_wins_witness :
    List.find? (fun q => q.enabled && match_event wEvt q wClock) [wPol1, wPol2] = some wPol1 ∧
    evaluate wEvt [wPol1, wPol2] wClock =
      { matched := true
        matched_policy_id := some "p1"
        mode := some "manual"
        actions := [wDenyAction]
        ttl_minutes := some 180
        target_principals := ["arn:aws:iam::123456789012:role/ci-deployer"] } :=
  ⟨by decide, (evaluate_first_match_wins wEvt [wPol1, wPol2] wClock).1 wPol1 (by decide)⟩

/-- C8: exception allowlisting is exclusionary only — if any exception
clause exempts the event, `match_event` returns false for that policy
even when the match conditions hold, and `evaluate` moves on to the
remaining policies unchanged. -/
theorem exception_exclusionary (e : CostEvent) (p : GuardrailPolicy) (ps : List GuardrailPolicy)
    (now : Clock) (ex : PolicyExceptions)
    (hex : p.exceptions = some ex) (hexm : is_exempted e ex now = true) :
    match_event e p now = false ∧ evaluate e (p :: ps) now = evaluate e ps now := by
  have hm : match_event e p now = false := by
    cases h : match_event e p now
    · rfl
    · exfalso
      simp [match_event, hex, hexm] at h
  refine ⟨hm, ?_⟩
  cases he : p.enabled with
  | false => simp [evaluate, he]
  | true => simp [evaluate, he, hm]

/-- Witness for C8: the account-allowlisted policy does not match the
scenario event, and evaluation falls through to the next policy. -/
theorem exception_exclusionary_witness :
    match_event wEvt wExemptPol wClock = false ∧
    evaluate wEvt [wExemptPol, wPol1] wClock = evaluate wEvt [wPol1] wClock :=
  exception_exclusionary wEvt wExemptPol [wPol1] wClock
    { accounts := some ["123456789012"], principals := none, time_windows := none }
    rfl (by decide)

/-- C9: `evaluate` is a pure function of the event, the policy list and
the wall clock (the clock enters only through time-window exceptions and
is an explicit input of the embedding): two calls with equal inputs yield
structurally identical plans. -/
theorem evaluate_deterministic (e₁ e₂ : CostEvent) (ps₁ ps₂ : List GuardrailPolicy)
    (now₁ now₂ : Clock) (he : e₁ = e₂) (hp : ps₁ = ps₂) (hn : now₁ = now₂) :
    evaluate e₁ ps₁ now₁ = evaluate e₂ ps₂ now₂ := by
  subst he
  subst hp
  subst hn
  rfl

/-- Witness for C9 at the scenario inputs. -/
theorem evaluate_deterministic_witness :
    evaluate wEvt [wPol1, wPol2] wClock = evaluate wEvt [wPol1, wPol2] wClock :=
  evaluate_deterministic wEvt wEvt [wPol1, wPol2] [wPol1, wPol2] wClock wClock rfl rfl rfl

/-! ## Theorems: rollback guard (C6) -/

/-- Counterexample to C6 as stated: for a dry-run executor,
`rollback_execution` on an executed record reports success (returns
True) yet leaves the record's status at "executed" — a successful
rollback does not always set the status to rolled_back. -/
theorem rollback_dry_run_counterexample :
    rollback_execution wBackend0 true wExecuted 0 = (true, wExecuted, wBackend0) ∧
    wExecuted.status = "executed" := by
  constructor
  · decide
  · rfl

/-- C6 (corrected): rollback of a record whose status is anything other
than "executed" is a no-op returning false — the record and the IAM
backend are returned untouched, so no detach or delete is attempted; for
an executed record, a successful non-dry-run rollback sets the status to
rolled_back (in dry-run mode rollback reports success without mutating
the record, see the counterexample). -/
theorem rollback_status_guard (b : IAMBackend) (dry : Bool) (x : ActionExecution) (now : Int) :
    (x.status ≠ "executed" → rollback_execution b dry x now = (false, x, b)) ∧
    (dry = false → x.status = "executed" → (rollback_execution b dry x now).1 = true →
      (rollback_execution b dry x now).2.1.status = "rolled_back") := by
  constructor
  · intro h
    simp [rollback_execution, h]
  · intro hd hs hr
    subst hd
    by_cases ha : (x.action == "attach_deny_policy") = true
    · rcases hab : rollback_attach b x with ⟨b', r⟩
      cases r with
      | ok u => simp [rollback_execution, hs, ha, hab]
      | error e => simp [rollback_execution, hs, ha, hab] at hr
    · by_cases hn : (x.action == "notify_only") = true
      · simp [rollback_execution, hs, ha, hn]
      · simp [rollback_execution, hs, ha, hn] at hr

/-- Witness for C6: the no-op on a planned record and the rolled_back
status after a real successful rollback, at concrete inputs. -/
theorem rollback_status_guard_witness :
    rollback_execution wBackend0 false { wExecuted with status := "planned" } 0 =
      (false, { wExecuted with status := "planned" }, wBackend0) ∧
    (rollback_execution wBackendOne false wExecuted 0).1 = true ∧
    (rollback_execution wBackendOne false wExecuted 0).2.1.status = "rolled_back" :=
  ⟨(rollback_status_guard wBackend0 false { wExecuted with status := "planned" } 0).1 (by decide),
   by rfl,
   (rollback_status_guard wBackendOne false wExecuted 0).2 rfl rfl (by rfl)⟩

/-! ## Theorems: audit-store helpers -/

/-- `put_item` then `get_item` under the same key returns the stored
record (replace branch). -/
theorem find_map_replace (l : Store) (x : ActionExecution)
    (h : l.any (fun y => y.execution_id == x.execution_id) = true) :
    (l.map (fun y => if y.execution_id == x.execution_id then x else y)).find?
      (fun y => y.execution_id == x.execution_id) = some x := by
  induction l with
  | nil => simp at h
  | cons y ys ih =>
    by_cases hy : (y.execution_id == x.execution_id) = true
    · rw [List.map_cons, if_pos hy, List.find?_cons]
      simp
    · have hyf : (y.execution_id == x.execution_id) = false := Bool.eq_false_iff.mpr hy
      have h' : ys.any (fun z => z.execution_id == x.execution_id) = true := by
        simpa [List.any_cons, hyf] using h
      rw [List.map_cons, if_neg hy, List.find?_cons, hyf]
      exact ih h'

/-- `put_item` then `get_item` under the same key returns the stored
record (insert branch). -/
theorem find_append_new (l : Store) (x : ActionExecution)
    (h : l.any (fun y => y.execution_id == x.execution_id) = false) :
    (l ++ [x]).find? (fun y => y.execution_id == x.execution_id) = some x := by
  induction l with
  | nil =>
    rw [List.nil_append, List.find?_cons]
    simp
  | cons y ys ih =>
    have hy : (y.execution_id == x.execution_id) = false := by
      have := List.any_eq_false.mp h y (by simp)
      simpa using this
    have h' : ys.any (fun z => z.execution_id == x.execution_id) = false := by
      apply List.any_eq_false.mpr
      intro z hz
      exact List.any_eq_false.mp h z (by simp [hz])
    rw [List.cons_append, List.find?_cons, hy]
    exact ih h'

/-- Reading back an updated record. -/
theorem get_execution_update (store : Store) (x : ActionExecution) :
    get_execution (update_execution store x) x.execution_id = some x := by
  unfold get_execution update_execution
  by_cases h : store.any (fun y => y.execution_id == x.execution_id) = true
  · rw [if_pos h]
    exact find_map_replace store x h
  · rw [if_neg h]
    exact find_append_new store x (Bool.eq_false_iff.mpr h)

/-- Every member of an updated store is the new record or an untouched
record under a different key. -/
theorem mem_update_execution (store : Store) (x y : ActionExecution)
    (hy : y ∈ update_execution store x) :
    y = x ∨ (y ∈ store ∧ (y.execution_id == x.execution_id) = false) := by
  unfold update_execution at hy
  by_cases h : store.any (fun z => z.execution_id == x.execution_id) = true
  · rw [if_pos h] at hy
    obtain ⟨z, hz, hzy⟩ := List.mem_map.mp hy
    by_cases hzx : (z.execution_id == x.execution_id) = true
    · left
      rw [← hzy, if_pos hzx]
    · right
      have hyz : y = z := by rw [← hzy, if_neg hzx]
      subst hyz
      exact ⟨hz, Bool.eq_false_iff.mpr hzx⟩
  · rw [if_neg h] at hy
    rcases List.mem_append.mp hy with h1 | h2
    · right
      refine ⟨h1, ?_⟩
      have := List.any_eq_false.mp (Bool.eq_false_iff.mpr h) y h1
      simpa using this
    · left
      simpa using h2

/-- The executor never renames an execution during rollback. -/
theorem rollback_execution_id (b : IAMBackend) (dry : Bool) (x : ActionExecution) (now : Int) :
    (rollback_execution b dry x now).2.1.execution_id = x.execution_id := by
  unfold rollback_execution
  split
  · rfl
  split
  · rfl
  split
  · split <;> rfl
  split
  · rfl
  · rfl

/-! ## Theorems: TTL cleanup (C10, C4) -/

/-- `_rollback_execution` reports exactly one of the three outcomes. -/
theorem rollback_one_cases (store : Store) (b : IAMBackend) (dry : Bool) (now : Int)
    (x : ActionExecution) :
    (rollback_one store b dry now x).1 = "rolled_back" ∨
    (rollback_one store b dry now x).1 = "skipped" ∨
    (rollback_one store b dry now x).1 = "failed" := by
  unfold rollback_one
  split
  · right; left; rfl
  split
  · left; rfl
  · right; right; rfl

/-- A candidate in `executed` status leaves the store with its record
keyed under its id no longer in `executed` status. -/
theorem rollback_one_store_status (store : Store) (b : IAMBackend) (dry : Bool) (now : Int)
    (x : ActionExecution) (hx : x.status = "executed") :
    ∀ y ∈ (rollback_one store b dry now x).2.1, y.status = "executed" →
      y ∈ store ∧ (y.execution_id == x.execution_id) = false := by
  intro y hy hys
  unfold rollback_one at hy
  rw [if_neg (by simp [hx])] at hy
  have hid := rollback_execution_id b dry x now
  rcases hre : rollback_execution b dry x now with ⟨succ, x', b'⟩
  rw [hre] at hy hid
  dsimp only at hid
  cases succ with
  | true =>
    dsimp only at hy
    rcases mem_update_execution _ _ _ hy with h1 | h2
    · rw [h1] at hys
      exact absurd hys (by simp)
    · obtain ⟨hmem, hbeq⟩ := h2
      dsimp only at hbeq
      rw [hid] at hbeq
      exact ⟨hmem, hbeq⟩
  | false =>
    dsimp only at hy
    rcases mem_update_execution _ _ _ hy with h1 | h2
    · rw [h1] at hys
      exact absurd hys (by simp)
    · obtain ⟨hmem, hbeq⟩ := h2
      dsimp only at hbeq
      rw [hid] at hbeq
      exact ⟨hmem, hbeq⟩

/-- After processing a batch of `executed` candidates, no record under a
candidate's key is still `executed`; untouched records come from the
original store. -/
theorem process_expired_store (dry : Bool) (now : Int) :
    ∀ (cs : List ActionExecution) (store : Store) (b : IAMBackend),
      (∀ x ∈ cs, x.status = "executed") →
      ∀ y ∈ (process_expired dry now cs store b).2.2.2.1, y.status = "executed" →
        y ∈ store ∧ ∀ x ∈ cs, (y.execution_id == x.execution_id) = false := by
  intro cs
  induction cs with
  | nil =>
    intro store b _ y hy _
    exact ⟨hy, by simp⟩
  | cons x xs ih =>
    intro store b hall y hy hys
    unfold process_expired at hy
    rcases h1 : rollback_one store b dry now x with ⟨r, store', b'⟩
    rw [h1] at hy
    dsimp only at hy
    rcases h2 : process_expired dry now xs store' b' with ⟨rb, fl, sk, store'', b''⟩
    rw [h2] at hy
    have hy'' : y ∈ store'' := by
      dsimp only at hy
      split at hy
      · exact hy
      split at hy
      · exact hy
      split at hy
      · exact hy
      · exact hy
    have htail := ih store' b' (fun z hz => hall z (List.mem_cons_of_mem _ hz)) y
      (by rw [h2]; exact hy'') hys
    obtain ⟨hmem', htailid⟩ := htail
    have hhead := rollback_one_store_status store b dry now x
      (hall x (List.mem_cons_self _ _)) y (by rw [h1]; exact hmem') hys
    refine ⟨hhead.1, ?_⟩
    intro z hz
    rcases List.mem_cons.mp hz with h | h
    · rw [h]
      exact hhead.2
    · exact htailid z h

/-- The three outcome counters partition the processed batch. -/
theorem process_expired_sum (dry : Bool) (now : Int) :
    ∀ (cs : List ActionExecution) (store : Store) (b : IAMBackend),
      (process_expired dry now cs store b).1 + (process_expired dry now cs store b).2.1 +
        (process_expired dry now cs store b).2.2.1 = cs.length := by
  intro cs
  induction cs with
  | nil => intro store b; rfl
  | cons x xs ih =>
    intro store b
    unfold process_expired
    have hr := rollback_one_cases store b dry now x
    rcases h1 : rollback_one store b dry now x with ⟨r, store', b'⟩
    rw [h1] at hr
    dsimp only at hr ⊢
    have hsum := ih store' b'
    rcases h2 : process_expired dry now xs store' b' with ⟨rb, fl, sk, store'', b''⟩
    rw [h2] at hsum
    dsimp only at hsum ⊢
    rcases hr with h | h | h <;> subst h
    · rw [if_pos (by rfl)]
      dsimp only [List.length_cons]
      omega
    · rw [if_neg (by decide), if_pos (by rfl)]
      dsimp only [List.length_cons]
      omega
    · rw [if_neg (by decide), if_neg (by decide), if_pos (by rfl)]
      dsimp only [List.length_cons]
      omega

/-- A record returned by the expired query has `executed` status. -/
theorem query_expired_status (store : Store) (now : Int) (x : ActionExecution)
    (hx : x ∈ query_expired_executions store now) : x.status = "executed" := by
  have hp := (List.mem_filter.mp hx).2
  cases ht : x.ttl_expires_at with
  | none => rw [ht] at hp; exact absurd hp (by simp)
  | some t =>
    rw [ht] at hp
    exact eq_of_beq (Bool.and_eq_true_iff.mp hp).2

/-- After one cleanup run whose candidate set was not truncated by the
batch cap, the expired query over the updated store is empty. -/
theorem cleanup_no_expired_left (store : Store) (b : IAMBackend) (dry : Bool) (batch : Nat)
    (now : Int) (hb : (query_expired_executions store now).length ≤ batch) :
    query_expired_executions (cleanup_expired_executions store b dry batch now).2.1 now = [] := by
  unfold cleanup_expired_executions
  dsimp only
  by_cases he : (query_expired_executions store now).isEmpty = true
  · rw [if_pos he]
    exact List.isEmpty_iff.mp he
  · rw [if_neg he]
    have hcap : ¬ batch < (query_expired_executions store now).length := Nat.not_lt.mpr hb
    rw [if_neg hcap]
    rcases h2 : process_expired dry now (query_expired_executions store now) store b with
      ⟨rb, fl, sk, store', b'⟩
    dsimp only
    apply List.filter_eq_nil_iff.mpr
    intro y hy hpred
    have hys : y.status = "executed" := by
      apply query_expired_status store' now
      exact List.mem_filter.mpr ⟨hy, hpred⟩
    have hinv := process_expired_store dry now (query_expired_executions store now) store b
      (fun z hz => query_expired_status store now z hz) y (by rw [h2]; exact hy) hys
    obtain ⟨hmem, hids⟩ := hinv
    have hyq : y ∈ query_expired_executions store now := List.mem_filter.mpr ⟨hmem, hpred⟩
    have := hids y hyq
    simp at this

/-- A cleanup run over a store with no expired candidates reports all
zeros. -/
theorem cleanup_empty_query (store : Store) (b : IAMBackend) (dry : Bool) (batch : Nat)
    (now : Int) (h : query_expired_executions store now = []) :
    (cleanup_expired_executions store b dry batch now).1.total_found = 0 ∧
    (cleanup_expired_executions store b dry batch now).1.rolled_back = 0 := by
  unfold cleanup_expired_executions
  dsimp only
  rw [h]
  exact ⟨rfl, rfl⟩

/-- C4 (corrected): provided the expired query finds no more candidates
than the configured batch size, running `cleanup_expired_executions`
twice in immediate succession with no new expirations in between is a
no-op on the second run — total_found = 0 and rolled_back = 0 — because
every candidate processed by the first run leaves with status rolled_back
or failed and drops out of the status-filtered expired query.  (When the
candidate set exceeds the batch size the excess is deferred and the
second run picks it up, see the counterexample.) -/
theorem cleanup_twice_noop (store : Store) (b : IAMBackend) (dry : Bool) (batch : Nat)
    (now : Int) (hb : (query_expired_executions store now).length ≤ batch) :
    (cleanup_expired_executions (cleanup_expired_executions store b dry batch now).2.1
      (cleanup_expired_executions store b dry batch now).2.2 dry batch now).1.total_found = 0 ∧
    (cleanup_expired_executions (cleanup_expired_executions store b dry batch now).2.1
      (cleanup_expired_executions store b dry batch now).2.2 dry batch now).1.rolled_back = 0 :=
  cleanup_empty_query _ _ dry batch now (cleanup_no_expired_left store b dry batch now hb)

/-- Counterexample to C4 as stated: with batch_size = 1 and two expired
executed records, the first run processes only one candidate; the second
run finds and rolls back the deferred one, so it is not a no-op. -/
theorem cleanup_twice_batch_counterexample :
    (cleanup_expired_executions (cleanup_expired_executions wStoreTwo wBackendTwo false 1 100).2.1
      (cleanup_expired_executions wStoreTwo wBackendTwo false 1 100).2.2 false 1 100).1.total_found
      = 1 ∧
    (cleanup_expired_executions (cleanup_expired_executions wStoreTwo wBackendTwo false 1 100).2.1
      (cleanup_expired_executions wStoreTwo wBackendTwo false 1 100).2.2 false 1 100).1.rolled_back
      = 1 := by
  constructor
  · rfl
  · rfl

/-- Witness for C4 at a concrete store: one expired execution, default
batch size, second run reports zero found and zero rolled back. -/
theorem cleanup_twice_noop_witness :
    (query_expired_executions wStoreOne 100).length ≤ 100 ∧
    (cleanup_expired_executions (cleanup_expired_executions wStoreOne wBackendOne false 100 100).2.1
      (cleanup_expired_executions wStoreOne wBackendOne false 100 100).2.2 false 100 100).1.total_found
      = 0 ∧
    (cleanup_expired_executions (cleanup_expired_executions wStoreOne wBackendOne false 100 100).2.1
      (cleanup_expired_executions wStoreOne wBackendOne false 100 100).2.2 false 100 100).1.rolled_back
      = 0 :=
  ⟨by decide,
   (cleanup_twice_noop wStoreOne wBackendOne false 100 100 (by decide)).1,
   (cleanup_twice_noop wStoreOne wBackendOne false 100 100 (by decide)).2⟩

/-- C10: the result of `cleanup_expired_executions` (whose embedded query
is total, the query-failure branch being unreachable) satisfies
rolled_back + failed + skipped = total_found, and total_found never
exceeds the batch size because it is computed after the batch cap. -/
theorem cleanup_counters_sum (store : Store) (b : IAMBackend) (dry : Bool) (batch : Nat)
    (now : Int) :
    (cleanup_expired_executions store b dry batch now).1.rolled_back +
      (cleanup_expired_executions store b dry batch now).1.failed +
      (cleanup_expired_executions store b dry batch now).1.skipped =
      (cleanup_expired_executions store b dry batch now).1.total_found ∧
    (cleanup_expired_executions store b dry batch now).1.total_found ≤ batch := by
  unfold cleanup_expired_executions
  dsimp only
  by_cases he : (query_expired_executions store now).isEmpty = true
  · rw [if_pos he]
    exact ⟨rfl, Nat.zero_le _⟩
  · rw [if_neg he]
    by_cases hlt : batch < (query_expired_executions store now).length
    · rw [if_pos hlt]
      have hsum := process_expired_sum dry now
        ((query_expired_executions store now).take batch) store b
      rcases h2 : process_expired dry now ((query_expired_executions store now).take batch)
          store b with ⟨rb, fl, sk, store', b'⟩
      rw [h2] at hsum
      dsimp only at hsum ⊢
      refine ⟨hsum, ?_⟩
      rw [List.length_take]
      exact min_le_left _ _
    · rw [if_neg hlt]
      have hsum := process_expired_sum dry now (query_expired_executions store now) store b
      rcases h2 : process_expired dry now (query_expired_executions store now) store b with
        ⟨rb, fl, sk, store', b'⟩
      rw [h2] at hsum
      dsimp only at hsum ⊢
      exact ⟨hsum, Nat.le_of_not_lt hlt⟩

/-! ## Theorems: plan execution isolation (C7) -/

/-- A single well-formed action on a single principal never raises: it
yields exactly one execution for that (action, target) pair, either
executed or failed-with-error-diff. -/
theorem execute_single_ok (b : IAMBackend) (dry : Bool) (a : PolicyAction)
    (p pid eid eby : String) (ttl : Option Nat) (now : Int) (ctr : Nat)
    (ha : wfAction a = true) :
    ∃ b' x, execute_single_action b dry a p pid eid eby ttl now ctr = (b', .ok x) ∧
      x.action = a.type ∧ x.target = p ∧
      (x.status = "executed" ∨ (x.status = "failed" ∧ ∃ m, x.diff = [("error", JVal.s m)])) := by
  unfold wfAction at ha
  by_cases hn : (a.type == "notify_only") = true
  · unfold execute_single_action
    rw [if_pos hn]
    exact ⟨b, _, rfl, rfl, rfl, Or.inl rfl⟩
  · rw [Bool.eq_false_iff.mpr hn, Bool.false_or] at ha
    obtain ⟨hat, hd⟩ := Bool.and_eq_true_iff.mp ha
    cases hdeny : a.deny with
    | none => rw [hdeny] at hd; simp at hd
    | some l =>
      rw [hdeny] at hd
      cases l with
      | nil => simp at hd
      | cons d ds =>
        unfold execute_single_action
        rw [if_neg hn, if_pos hat, hdeny]
        cases dry with
        | true =>
          dsimp only
          exact ⟨b, _, rfl, rfl, rfl, Or.inl rfl⟩
        | false =>
          dsimp only
          rcases hatt : attach_deny_policy b p (d :: ds) pid with ⟨b2, r⟩
          cases r with
          | ok dct =>
            dsimp only
            exact ⟨b2, _, rfl, rfl, rfl, Or.inl rfl⟩
          | error e =>
            dsimp only
            exact ⟨b2, _, rfl, rfl, rfl, Or.inr ⟨rfl, e, rfl⟩⟩

/-- The inner loop visits every target principal of a well-formed action
in order, never aborting. -/
theorem exec_principals_ok (dry : Bool) (a : PolicyAction) (pid eid eby : String)
    (ttl : Option Nat) (now : Int) (ha : wfAction a = true) :
    ∀ (prins : List String) (b : IAMBackend) (ctr : Nat),
      ∃ b' c' xs, exec_principals b dry a pid eid eby ttl now prins ctr = (b', c', .ok xs) ∧
        xs.map (fun x => (x.action, x.target)) = prins.map (fun p => (a.type, p)) ∧
        ∀ x ∈ xs, x.status = "executed" ∨
          (x.status = "failed" ∧ ∃ m, x.diff = [("error", JVal.s m)]) := by
  intro prins
  induction prins with
  | nil =>
    intro b ctr
    exact ⟨b, ctr, [], rfl, rfl, by simp⟩
  | cons p ps ih =>
    intro b ctr
    obtain ⟨b1, x, hx, hact, htgt, hst⟩ := execute_single_ok b dry a p pid eid eby ttl now ctr ha
    obtain ⟨b2, c2, xs, hxs, hmap, hall⟩ := ih b1 (ctr + 1)
    refine ⟨b2, c2, x :: xs, ?_, ?_, ?_⟩
    · unfold exec_principals
      rw [hx]
      dsimp only
      rw [hxs]
    · rw [List.map_cons, List.map_cons, hmap, hact, htgt]
    · intro z hz
      rcases List.mem_cons.mp hz with h | h
      · subst h; exact hst
      · exact hall z h

/-- The outer loop visits every (action, principal) pair in input order,
never aborting, provided every action is well-formed. -/
theorem exec_actions_ok (dry : Bool) (pid eid eby : String) (ttl : Option Nat) (now : Int)
    (prins : List String) :
    ∀ (acts : List PolicyAction) (b : IAMBackend) (ctr : Nat),
      (∀ a ∈ acts, wfAction a = true) →
      ∃ b' c' xs, exec_actions b dry pid eid eby ttl now prins acts ctr = (b', c', .ok xs) ∧
        xs.map (fun x => (x.action, x.target)) =
          acts.flatMap (fun a => prins.map (fun p => (a.type, p))) ∧
        ∀ x ∈ xs, x.status = "executed" ∨
          (x.status = "failed" ∧ ∃ m, x.diff = [("error", JVal.s m)]) := by
  intro acts
  induction acts with
  | nil =>
    intro b ctr _
    exact ⟨b, ctr, [], rfl, rfl, by simp⟩
  | cons a as ih =>
    intro b ctr hwf
    obtain ⟨b1, c1, xs, hxs, hmap1, hall1⟩ :=
      exec_principals_ok dry a pid eid eby ttl now (hwf a (List.mem_cons_self _ _)) prins b ctr
    obtain ⟨b2, c2, ys, hys, hmap2, hall2⟩ :=
      ih b1 c1 (fun q hq => hwf q (List.mem_cons_of_mem _ hq))
    refine ⟨b2, c2, xs ++ ys, ?_, ?_, ?_⟩
    · unfold exec_actions
      rw [hxs]
      dsimp only
      rw [hys]
    · rw [List.map_append, List.flatMap_cons, hmap1, hmap2]
    · intro z hz
      rcases List.mem_append.mp hz with h | h
      · exact hall1 z h
      · exact hall2 z h

/-- C7: on a matched plan with a (pydantic-validated) non-empty policy id
and well-formed actions, `execute_action_plan` returns one
ActionExecution per (action, target principal) pair, in input order —
and a failing pair is recorded as a failed execution carrying the error
string in its diff while every sibling pair is still attempted: the
result covers all pairs regardless of per-pair failures. -/
theorem execute_action_plan_isolation (b : IAMBackend) (dry : Bool) (plan : ActionPlan)
    (eid eby : String) (now : Int) (pid : String)
    (hm : plan.matched = true) (hpid : plan.matched_policy_id = some pid) (hne : pid ≠ "")
    (hacts : plan.actions ≠ []) (hwf : ∀ a ∈ plan.actions, wfAction a = true) :
    ∃ b' xs, execute_action_plan b dry plan eid eby now = (b', .ok xs) ∧
      xs.map (fun x => (x.action, x.target)) =
        plan.actions.flatMap (fun a => plan.target_principals.map (fun p => (a.type, p))) ∧
      ∀ x ∈ xs, x.status = "executed" ∨
        (x.status = "failed" ∧ ∃ m, x.diff = [("error", JVal.s m)]) := by
  obtain ⟨b', c', xs, hx, hmap, hall⟩ := exec_actions_ok dry pid eid eby plan.ttl_minutes now
    plan.target_principals plan.actions b 0 hwf
  refine ⟨b', xs, ?_, hmap, hall⟩
  unfold execute_action_plan
  rw [hm]
  rw [if_neg (by simp)]
  have hc2 : ((match plan.matched_policy_id with
               | none => true
               | some s => s == "") || plan.actions.isEmpty) = false := by
    rw [hpid, Bool.or_eq_false_iff]
    exact ⟨beq_eq_false_iff_ne.mpr hne, List.isEmpty_eq_false.mpr hacts⟩
  rw [if_neg (by rw [hc2]; simp)]
  have hgd : plan.matched_policy_id.getD "" = pid := by rw [hpid]; rfl
  rw [hgd]
  dsimp only
  rw [hx]

/-- Witness for C7: a two-principal attach plan where one principal's
attach call raises — both pairs are returned, the failing one failed with
the error in its diff, the other executed. -/
theorem execute_action_plan_isolation_witness :
    (∀ a ∈ wPlanTwo.actions, wfAction a = true) ∧
    ∃ b' xs, execute_action_plan wFailBackend false wPlanTwo "evt-1" "system:auto" 0 =
        (b', .ok xs) ∧
      xs.map (fun x => (x.action, x.target)) =
        wPlanTwo.actions.flatMap
          (fun a => wPlanTwo.target_principals.map (fun p => (a.type, p))) ∧
      ∀ x ∈ xs, x.status = "executed" ∨
        (x.status = "failed" ∧ ∃ m, x.diff = [("error", JVal.s m)]) :=
  ⟨by decide,
   execute_action_plan_isolation wFailBackend false wPlanTwo "evt-1" "system:auto" 0 "p1"
     rfl rfl (by decide) (by decide) (by decide)⟩

/-! ## Theorems: approval execution and TTL (C1) -/

/-- A real attach with a parsable principal and no injected AWS failure
succeeds, and its diff carries the before/after attachment lists. -/
theorem attach_deny_policy_ok (b : IAMBackend) (tgt : String) (deny : List String)
    (pid : String) (pt pn : String)
    (hparse : parse_principal_arn tgt = .ok (pt, pn))
    (hfail : lookupStr b.attach_fail tgt = none) :
    ∃ b' d, attach_deny_policy b tgt deny pid = (b', .ok d) ∧
      (∃ bl, dictGet d "before" = some (.sl bl)) ∧
      (∃ al, dictGet d "after" = some (.sl al)) := by
  unfold attach_deny_policy
  rw [hparse]
  dsimp only
  rw [hfail]
  dsimp only
  exact ⟨_, _, rfl, ⟨_, rfl⟩, ⟨_, rfl⟩⟩

/-- The single-action, single-target plan the approval handler rebuilds
executes to exactly one executed record whose diff has before/after lists
and whose `ttl_expires_at` is `none` (the rebuilt plan carries
`ttl_minutes = 0`). -/
theorem attach_ok_single (b : IAMBackend) (tgt : String) (l : List String)
    (pid eid eby : String) (now : Int) (pt pn : String)
    (hparse : parse_principal_arn tgt = .ok (pt, pn))
    (hfail : lookupStr b.attach_fail tgt = none)
    (hl : l ≠ []) (hpid : pid ≠ "") :
    ∃ b' x,
      execute_action_plan b false
        { matched := true
          matched_policy_id := some pid
          mode := some "manual"
          actions := [{ type := "attach_deny_policy", deny := some l }]
          ttl_minutes := some 0
          target_principals := [tgt] } eid eby now = (b', .ok [x]) ∧
      x.status = "executed" ∧ x.ttl_expires_at = none ∧
      (∃ bl, dictGet x.diff "before" = some (.sl bl)) ∧
      (∃ al, dictGet x.diff "after" = some (.sl al)) := by
  cases l with
  | nil => exact absurd rfl hl
  | cons d ds =>
    obtain ⟨b2, dd, hatt, ⟨bl, hbl⟩, ⟨al, hal⟩⟩ :=
      attach_deny_policy_ok b tgt (d :: ds) pid pt pn hparse hfail
    refine ⟨b2,
      { execution_id := "exec-" ++ toString 0
        policy_id := pid
        event_id := eid
        status := "executed"
        executed_at := some now
        executed_by := eby
        action := "attach_deny_policy"
        target := tgt
        diff := dd
        ttl_expires_at := none
        rolled_back_at := none }, ?_, rfl, rfl, ⟨bl, hbl⟩, ⟨al, hal⟩⟩
    unfold execute_action_plan
    rw [if_neg (by simp), if_neg (by simp [hpid])]
    dsimp only [Option.getD]
    unfold exec_actions exec_principals execute_single_action
    dsimp only [Option.getD]
    rw [hatt]
    rfl

/-- C1 (corrected): after a valid approval of a planned
attach_deny_policy execution whose stored deny list passes the
`validate_deny_actions` blocklist (as every policy-created list does),
whose target parses and whose attach call does not fail, the handler
answers 200 and the record stored under the original execution id has
status executed with populated before/after attached-permission-set
lists — but `ttl_expires_at` is always `none`, even when the originating
policy's ttl_minutes is positive, because the approval handler rebuilds
the plan with `ttl_minutes = 0`. -/
theorem handle_approval_executed_no_ttl
    (cfg : ApprovalConfig) (store : Store) (b : IAMBackend)
    (execution_id signature timestamp : String) (parsedTs : Option Int) (now : Int)
    (user : String) (x : ActionExecution) (l : List String) (pt pn : String)
    (hsig : verify_signature cfg.approval_secret execution_id timestamp signature = true)
    (hfresh : is_expired parsedTs now cfg.approval_timeout_hours = false)
    (hget : get_execution store execution_id = some x)
    (hst : x.status = "planned")
    (hact : x.action = "attach_deny_policy")
    (hwd : dictGet x.diff "would_deny" = some (.sl l)) (hl : l ≠ [])
    (hsafe : firstDangerous l = none)
    (hpid : x.policy_id ≠ "")
    (hparse : parse_principal_arn x.target = .ok (pt, pn))
    (hfail : lookupStr b.attach_fail x.target = none) :
    (handle_approval cfg store b false execution_id signature timestamp parsedTs now
        user).1.statusCode = 200 ∧
    ∃ rec, get_execution
        (handle_approval cfg store b false execution_id signature timestamp parsedTs now
          user).2.1 execution_id = some rec ∧
      rec.execution_id = execution_id ∧ rec.status = "executed" ∧ rec.ttl_expires_at = none ∧
      (∃ bl, dictGet rec.diff "before" = some (.sl bl)) ∧
      (∃ al, dictGet rec.diff "after" = some (.sl al)) := by
  have hlE : l.isEmpty = false := List.isEmpty_eq_false.mpr hl
  have hpb : (x.policy_id == "") = false := beq_eq_false_iff_ne.mpr hpid
  obtain ⟨b2, x1, hexec, hx1st, hx1ttl, hbl, hal⟩ :=
    attach_ok_single b x.target l x.policy_id x.event_id ("user:" ++ user) now pt pn
      hparse hfail hl hpid
  unfold handle_approval
  rw [hsig]
  rw [if_neg (by decide)]
  rw [hfresh]
  rw [if_neg (by decide)]
  rw [hget]
  dsimp only
  rw [if_neg (by simp [hst])]
  rw [hact, hwd]
  dsimp only
  simp only [hlE, hpb, Bool.false_eq_true, if_false, Bool.false_and]
  rw [if_neg (by decide)]
  rw [hsafe]
  dsimp only
  rw [hexec]
  dsimp only
  refine ⟨rfl, { x1 with execution_id := execution_id }, ?_, rfl, hx1st, hx1ttl, hbl, hal⟩
  exact get_execution_update store { x1 with execution_id := execution_id }

set_option maxHeartbeats 4000000 in
/-- Counterexample to C1 as stated: the spec §8 scenario end to end — the
amount-800 event against the manual policy with `ttl_minutes = 180`
produces a planned execution with `would_deny`; a valid approval yields
status executed with before/after lists populated, yet
`ttl_expires_at = none` although the originating policy's ttl_minutes is
greater than 0. -/
theorem approval_ttl_counterexample :
    wPol1.ttl_minutes = 180 ∧
    wApprovalOut.1.statusCode = 200 ∧
    (get_execution wApprovalOut.2.1 "exec-0").map (fun r => (r.status, r.ttl_expires_at)) =
      some ("executed", none) :=
  ⟨rfl, rfl, rfl⟩

set_option maxHeartbeats 4000000 in
/-- The `validate_deny_actions` blocklist raised while the approval
handler reconstructs the `PolicyAction` is caught into a failed record
and a 500: a planned record whose stored `would_deny` carries a
blocklisted action is never executed. -/
theorem handle_approval_blocklist_500 :
    (handle_approval wCfg wBlockedStore wBackend0 false "exec-0" wSig wTs (some 0) 0
        "alice").1.statusCode = 500 ∧
    (get_execution (handle_approval wCfg wBlockedStore wBackend0 false "exec-0" wSig wTs
        (some 0) 0 "alice").2.1 "exec-0").map (fun r => r.status) = some "failed" :=
  ⟨rfl, rfl⟩

set_option maxHeartbeats 4000000 in
/-- Witness for C1 (amended) at the concrete scenario store and a valid
signature. -/
theorem handle_approval_executed_no_ttl_witness :
    (handle_approval wCfg wStore0 wBackend0 false "exec-0" wSig wTs (some 0) 0
        "alice").1.statusCode = 200 ∧
    ∃ rec, get_execution
        (handle_approval wCfg wStore0 wBackend0 false "exec-0" wSig wTs (some 0) 0
          "alice").2.1 "exec-0" = some rec ∧
      rec.execution_id = "exec-0" ∧ rec.status = "executed" ∧ rec.ttl_expires_at = none ∧
      (∃ bl, dictGet rec.diff "before" = some (.sl bl)) ∧
      (∃ al, dictGet rec.diff "after" = some (.sl al)) :=
  handle_approval_executed_no_ttl wCfg wStore0 wBackend0 "exec-0" wSig wTs (some 0) 0
    "alice" wPlanned0 ["ec2:RunInstances"] "role" "ci-deployer"
    rfl rfl rfl rfl rfl rfl (by decide) rfl (by decide) rfl rfl

end AutoGuardRails
